import Mathlib

/-!
Verification of the orchestration-and-policy engine of the AcuLeadFinder
outreach system: the guardrail/compliance layer, the planner, the draft and
job state transitions exposed by the route handlers and the persistence
store.  Python strings are modelled as `List Char` (ASCII semantics for
case folding, whitespace and `str.isupper`); Python dictionaries keyed by
strings are modelled as association lists; the possibly-missing Firestore
connection is modelled as an `Option` of a pure database state; a call that
may raise is modelled as an `Except String` result, the caught exception
text being the `String`.
-/

namespace AcuLeadFinder

/-! ### Python string primitives (`str` modelled as `List Char`) -/

/-- Python `str.isspace` membership for a single character (ASCII whitespace:
space, tab, newline, carriage return, vertical tab, form feed). -/
def pyIsSpace (c : Char) : Bool :=
  c.toNat = 32 || c.toNat = 9 || c.toNat = 10 || c.toNat = 13 ||
    c.toNat = 11 || c.toNat = 12

/-- Python `str.lower` on one character (ASCII case folding). -/
def pyToLower (c : Char) : Char :=
  if 65 ≤ c.toNat ∧ c.toNat ≤ 90 then Char.ofNat (c.toNat + 32) else c

/-- Python `str.lower`. -/
def pyLower (s : List Char) : List Char := s.map pyToLower

/-- Python `str.rstrip()` (no argument): drop trailing whitespace. -/
def pyRstrip (s : List Char) : List Char :=
  (s.reverse.dropWhile pyIsSpace).reverse

/-- Python `str.lstrip()` (no argument): drop leading whitespace. -/
def pyLstrip (s : List Char) : List Char := s.dropWhile pyIsSpace

/-- Python `str.strip()` (no argument). -/
def pyStrip (s : List Char) : List Char := pyLstrip (pyRstrip s)

/-- The apostrophe character (U+0027), built numerically. -/
def apos : Char := Char.ofNat 39

/-- The newline character. -/
def nl : Char := Char.ofNat 10

/-- One step of `pySplit`, consuming one character from the right.
The accumulator is (finished words, word being collected). -/
def pySplitAux (c : Char) (acc : List (List Char) × List Char) :
    List (List Char) × List Char :=
  if pyIsSpace c then
    match acc.2 with
    | [] => acc
    | w => (w :: acc.1, [])
  else (acc.1, c :: acc.2)

/-- Python `str.split()` (no argument): split on whitespace runs, producing
no empty words. -/
def pySplit (s : List Char) : List (List Char) :=
  let r := s.foldr pySplitAux ([], [])
  match r.2 with
  | [] => r.1
  | w => w :: r.1

/-- Python `str.isupper` on a word (ASCII: at least one cased character and
no lowercase character). -/
def pyIsUpperWord (w : List Char) : Bool :=
  (w.any fun c => 65 ≤ c.toNat && c.toNat ≤ 90) &&
    !(w.any fun c => 97 ≤ c.toNat && c.toNat ≤ 122)

/-! ### Data model (memory/schemas.py)

Pydantic models become structures.  The `createdAt` / `updatedAt` /
`enrichedAt` timestamp fields (wall-clock time) are not modelled. -/

/-- The `JobStatus` enum of memory/schemas.py. -/
inductive JobStatus where
  | queued | running | paused | done | failed
deriving DecidableEq, Repr

/-- The `DraftStatus` enum of memory/schemas.py. -/
inductive DraftStatus where
  | draft | approved | rejected | sent | failed
deriving DecidableEq, Repr

/-- The `Campaign` model of memory/schemas.py (`geo` is a string-valued dict). -/
structure Campaign where
  campaignId : String
  name : String
  preset : String
  industry : String
  geo : List (String × String)
  keywords : List String
  model : String := "gpt-4o"
  sendCapPerRun : Nat := 20
  dailySendCap : Nat := 200
  status : String := "active"

/-- The `Job` model of memory/schemas.py. -/
structure Job where
  jobId : String
  campaignId : String
  plannedCount : Nat
  sentCount : Nat := 0
  costUSD : Float := 0.0
  status : JobStatus := JobStatus.queued

/-- The `Lead` model of memory/schemas.py. -/
structure Lead where
  leadId : String
  jobId : String
  campaignId : String
  company : String
  contactName : String
  role : String
  email : String
  domain : String
  city : String
  state : String
  sourceUrl : String
  confidence : Float := 0.0

/-- The `Draft` model of memory/schemas.py. -/
structure Draft where
  draftId : String
  jobId : String
  leadId : String
  subject : List Char
  body : List Char
  status : DraftStatus := DraftStatus.draft
  reviewer : Option String := none
  messageId : Option String := none

/-- The `RunEvent` model of memory/schemas.py (`data` as a string-valued dict). -/
structure RunEvent where
  runId : String
  jobId : String
  step : String
  event : String
  data : List (String × String)

/-- Default `unsubscribeText` of `GlobalSettings`, and also the fallback text
hard-coded in `Compliance._add_unsubscribe_text`; the same literal appears at
both places in the source.  Its text is
If you'd prefer not to hear from us again, reply with 'unsubscribe'. -/
def defaultUnsubscribeText : List Char :=
  "If you".data ++ apos ::
    "d prefer not to hear from us again, reply with ".data ++ apos ::
      "unsubscribe".data ++ apos :: ".".data

/-- Default `legalAddress` of `GlobalSettings`, also the fallback hard-coded
in `Compliance._add_legal_address`. -/
def defaultLegalAddress : List Char :=
  "NOFA Business Consulting, LLC --- Gaithersburg, MD".data

/-- The `GlobalSettings` model of memory/schemas.py with its field defaults. -/
structure GlobalSettings where
  allowDomains : List (List Char) := []
  blockDomains : List (List Char) := []
  unsubscribeText : List Char := defaultUnsubscribeText
  legalAddress : List Char := defaultLegalAddress
deriving DecidableEq

/-! ### Persistence store (memory/firestore_store.py)

`FirestoreStore.db` is `None` when `_initialize_firestore` failed (connection
not established); every operation starts with `if not self.db: return <default>`.
We model the store state as `Option FirestoreDB`: `none` is the unavailable
backend.  Firestore `document(id).set` is an upsert; `document(id).update`
raises NotFound on an absent document, which each operation's `except` turns
into `False`. -/

/-- One Firestore collection: documents keyed by id. -/
def setDoc {α : Type} (k : String) (v : α) (m : List (String × α)) :
    List (String × α) :=
  (k, v) :: m.eraseP (fun p => p.1 == k)

/-- The whole Firestore database state. -/
structure FirestoreDB where
  campaigns : List (String × Campaign) := []
  jobs : List (String × Job) := []
  leads : List (String × Lead) := []
  drafts : List (String × Draft) := []
  runs : List (String × RunEvent) := []
  settingsDoc : Option GlobalSettings := none

/-- The `FirestoreStore.create_campaign`. -/
def create_campaign (db : Option FirestoreDB) (c : Campaign) :
    Bool × Option FirestoreDB :=
  match db with
  | none => (false, none)
  | some d => (true, some { d with campaigns := setDoc c.campaignId c d.campaigns })

/-- The `FirestoreStore.get_campaign`. -/
def get_campaign (db : Option FirestoreDB) (id : String) : Option Campaign :=
  match db with
  | none => none
  | some d => d.campaigns.lookup id

/-- The `FirestoreStore.create_job`. -/
def create_job (db : Option FirestoreDB) (j : Job) : Bool × Option FirestoreDB :=
  match db with
  | none => (false, none)
  | some d => (true, some { d with jobs := setDoc j.jobId j d.jobs })

/-- The `FirestoreStore.get_job`. -/
def get_job (db : Option FirestoreDB) (id : String) : Option Job :=
  match db with
  | none => none
  | some d => d.jobs.lookup id

/-- The `FirestoreStore.update_job_status`: a partial update of status and the
optional `sent_count` / `cost` fields.  No check of the current status is
made; an absent document makes Firestore `update` raise, caught as `False`. -/
def update_job_status (db : Option FirestoreDB) (jobId : String)
    (status : JobStatus) (sentCount : Option Nat) (cost : Option Float) :
    Bool × Option FirestoreDB :=
  match db with
  | none => (false, none)
  | some d =>
    match d.jobs.lookup jobId with
    | none => (false, some d)
    | some j =>
      let j1 := match sentCount with
        | some n => { j with sentCount := n }
        | none => j
      let j2 := match cost with
        | some c => { j1 with costUSD := c }
        | none => j1
      (true, some { d with jobs := setDoc jobId { j2 with status := status } d.jobs })

/-- The `FirestoreStore.create_lead`. -/
def create_lead (db : Option FirestoreDB) (l : Lead) : Bool × Option FirestoreDB :=
  match db with
  | none => (false, none)
  | some d => (true, some { d with leads := setDoc l.leadId l d.leads })

/-- The `FirestoreStore.get_leads_by_job`. -/
def get_leads_by_job (db : Option FirestoreDB) (jobId : String) : List Lead :=
  match db with
  | none => []
  | some d =>
    (d.leads.filter (fun (p : String × Lead) => p.2.jobId == jobId)).map
      (fun (p : String × Lead) => p.2)

/-- The `FirestoreStore.create_draft`. -/
def create_draft (db : Option FirestoreDB) (dr : Draft) : Bool × Option FirestoreDB :=
  match db with
  | none => (false, none)
  | some d => (true, some { d with drafts := setDoc dr.draftId dr d.drafts })

/-- The `FirestoreStore.get_draft`. -/
def get_draft (db : Option FirestoreDB) (id : String) : Option Draft :=
  match db with
  | none => none
  | some d => d.drafts.lookup id

/-- The `FirestoreStore.get_drafts_by_job` (optional status filter; a `DraftStatus`
value is always truthy in Python, so `some s` always filters). -/
def get_drafts_by_job (db : Option FirestoreDB) (jobId : String)
    (status : Option DraftStatus) : List Draft :=
  match db with
  | none => []
  | some d =>
    let base := d.drafts.filter (fun (p : String × Draft) => p.2.jobId == jobId)
    let flt := match status with
      | some s => base.filter (fun (p : String × Draft) => p.2.status == s)
      | none => base
    flt.map (fun (p : String × Draft) => p.2)

/-- The `FirestoreStore.update_draft_status`: partial update; `if reviewer:` and
`if message_id:` are Python truthiness tests, false for `None` and `""`. -/
def update_draft_status (db : Option FirestoreDB) (draftId : String)
    (status : DraftStatus) (reviewer : Option String) (messageId : Option String) :
    Bool × Option FirestoreDB :=
  match db with
  | none => (false, none)
  | some d =>
    match d.drafts.lookup draftId with
    | none => (false, some d)
    | some dr =>
      let d1 := match reviewer with
        | some r => if r ≠ "" then { dr with reviewer := some r } else dr
        | none => dr
      let d2 := match messageId with
        | some m => if m ≠ "" then { d1 with messageId := some m } else d1
        | none => d1
      (true, some { d with drafts := setDoc draftId { d2 with status := status } d.drafts })

/-- The `FirestoreStore.log_run_event`. -/
def log_run_event (db : Option FirestoreDB) (e : RunEvent) : Bool × Option FirestoreDB :=
  match db with
  | none => (false, none)
  | some d => (true, some { d with runs := setDoc e.runId e d.runs })

/-- The `FirestoreStore.get_global_settings`: defaults when the backend is
unavailable; otherwise the stored document, lazily created with defaults on
first read. -/
def get_global_settings (db : Option FirestoreDB) :
    GlobalSettings × Option FirestoreDB :=
  match db with
  | none => ({}, none)
  | some d =>
    match d.settingsDoc with
    | some s => (s, some d)
    | none => ({}, some { d with settingsDoc := some {} })

/-! ### Compliance (policies/compliance.py)

`ensure_email_compliance` reads the global settings through the store; the
settings value obtained from that read is passed here as an argument
(`get_global_settings` never raises: it catches internally and returns
defaults).  Issue strings are Python strings, modelled as `List Char`. -/

/-- The `Compliance.unsubscribe_keywords`. -/
def unsubscribeKeywords : List (List Char) :=
  ["unsubscribe".data, "stop".data, "remove".data, "opt-out".data]

/-- The `Compliance._has_unsubscribe_text`: `False` on empty configured text,
else a case-insensitive containment of the configured text or any keyword. -/
def has_unsubscribe_text (body text : List Char) : Bool :=
  if text = [] then false
  else decide (pyLower text <:+: pyLower body) ||
    unsubscribeKeywords.any (fun k => decide (k <:+: pyLower body))

/-- The `Compliance._add_unsubscribe_text`:
`f"{body.rstrip()}\n\n{unsubscribe_text}"`, substituting the hard-coded
default when the configured text is empty. -/
def add_unsubscribe_text (body text : List Char) : List Char :=
  let t := if text = [] then defaultUnsubscribeText else text
  pyRstrip body ++ nl :: nl :: t

/-- The `Compliance._has_legal_address`: `False` on empty configured address,
else case-sensitive containment. -/
def has_legal_address (body legal : List Char) : Bool :=
  if legal = [] then false else decide (legal <:+: body)

/-- The `Compliance._add_legal_address`: `f"{body.rstrip()}\n{legal_address}"`,
substituting the hard-coded default when the configured address is empty. -/
def add_legal_address (body legal : List Char) : List Char :=
  let l := if legal = [] then defaultLegalAddress else legal
  pyRstrip body ++ nl :: l

/-- The misleading-phrase deny list of `Compliance._validate_subject`. -/
def misleadingPhrases : List (List Char) :=
  ["urgent".data, "immediate action".data, "final notice".data,
   "you have won".data, "free money".data, "guaranteed".data,
   "100% free".data, "no cost".data, "prize".data, "winner".data]

/-- The `Compliance._validate_subject`. -/
def validate_subject (subject : List Char) : Bool :=
  if subject = [] ∨ pyStrip subject = [] then false
  else if misleadingPhrases.any (fun p => decide (p <:+: pyLower subject)) then false
  else if subject.length > 150 then false
  else true

/-- The spammy-phrase list of `Compliance._validate_body_content`. -/
def spammyPhrases : List (List Char) :=
  ["make money fast".data, "work from home".data, "get rich quick".data,
   "double your".data, "risk-free".data, "lose weight".data,
   "miracle".data, "once in a lifetime".data]

/-- The misleading-claim list of `Compliance._validate_body_content`. -/
def misleadingClaims : List (List Char) :=
  ["guaranteed results".data, "no risk".data, "instant".data, "overnight".data]

/-- The `Compliance._validate_body_content`: collects issue strings in source
order (spammy phrases, excessive capitalization, misleading claims) and is
compliant iff no issue was collected. -/
def validate_body_content (body : List Char) : Bool × List (List Char) :=
  let bodyLower := pyLower body
  let spamIssues := spammyPhrases.filterMap (fun p =>
    if p <:+: bodyLower then
      some ("Contains spammy phrase: ".data ++ apos :: (p ++ [apos]))
    else none)
  let words := pySplit body
  let allCaps := words.filter (fun w => pyIsUpperWord w && decide (w.length > 2))
  let capsIssues :=
    if words.length > 0 ∧ allCaps.length > 3 then
      ["Excessive use of capitalization".data]
    else []
  let claimIssues := misleadingClaims.filterMap (fun p =>
    if p <:+: bodyLower then
      some ("Potentially misleading claim: ".data ++ apos :: (p ++ [apos]))
    else none)
  let issues := spamIssues ++ capsIssues ++ claimIssues
  (issues = [], issues)

/-- Result dictionary of `Compliance.ensure_email_compliance`. -/
structure ComplianceResult where
  compliant : Bool
  modified_subject : List Char
  modified_body : List Char
  issues : List (List Char)
  subject_approved : Bool
  body_approved : Bool
deriving DecidableEq

/-- The `Compliance.ensure_email_compliance` on an email with the given subject
and body, under the given global settings (the value its store read
returned). -/
def ensure_email_compliance (settings : GlobalSettings)
    (subject body : List Char) : ComplianceResult :=
  let body1 :=
    if has_unsubscribe_text body settings.unsubscribeText then body
    else add_unsubscribe_text body settings.unsubscribeText
  let body2 :=
    if has_legal_address body1 settings.legalAddress then body1
    else add_legal_address body1 settings.legalAddress
  let subjectCompliant := validate_subject subject
  let bodyResult := validate_body_content body2
  { compliant := subjectCompliant && bodyResult.1
    modified_subject := subject
    modified_body := body2
    issues := bodyResult.2
    subject_approved := subjectCompliant
    body_approved := bodyResult.1 }

/-! ### Guardrails (policies/guardrails.py)

`Guardrails.__init__` reads `SEND_CAP_PER_RUN` (default 20), `DAILY_SEND_CAP`
(default 200) and `ROBOTS_RESPECT` (default true) from the environment; the
resulting configuration is a `GuardrailsCfg`.  Each check wraps its body in
`try/except` and the awaited store / robots call is the only thing that can
raise there, so that call's outcome is passed in as an `Except String` value:
`.error e` is a raised exception whose text is `e`. -/

/-- The environment-derived configuration of a `Guardrails` instance. -/
structure GuardrailsCfg where
  send_cap_per_run : Nat := 20
  daily_send_cap : Nat := 200
  respect_robots : Bool := true

/-- An `{"allowed": ..., "reason": ...}` result dictionary. -/
structure CheckResult where
  allowed : Bool
  reason : List Char
deriving DecidableEq

/-- The `Guardrails.check_send_limits`.  `jobRes` is the outcome of the awaited
`firestore_store.get_job(job_id)`; `job.sentCount or 0` is the model's
`sentCount` field itself, which pydantic already defaults to 0.  The numeric
parts of the reason strings follow the source's f-strings. -/
def check_send_limits (cfg : GuardrailsCfg) (jobRes : Except String (Option Job))
    (planned_send_count : Nat) : CheckResult :=
  match jobRes with
  | .error e => { allowed := false, reason := "Error checking limits: ".data ++ e.data }
  | .ok none => { allowed := false, reason := "Job not found".data }
  | .ok (some job) =>
    let sent_this_run := job.sentCount
    if sent_this_run + planned_send_count > cfg.send_cap_per_run then
      { allowed := false
        reason := "Per-run send cap exceeded: ".data ++
          (toString (sent_this_run + planned_send_count)).data ++ " > ".data ++
            (toString cfg.send_cap_per_run).data }
    else
      let estimated_daily_sent := sent_this_run + planned_send_count
      if estimated_daily_sent > cfg.daily_send_cap then
        { allowed := false
          reason := "Daily send cap exceeded: ".data ++
            (toString estimated_daily_sent).data ++ " > ".data ++
              (toString cfg.daily_send_cap).data }
      else { allowed := true, reason := "Within limits".data }

/-- The built-in consumer-domain deny list of
`Guardrails.check_domain_restrictions`. -/
def personalDomains : List (List Char) :=
  ["gmail.com".data, "yahoo.com".data, "hotmail.com".data,
   "outlook.com".data, "aol.com".data]

/-- The `Guardrails.check_domain_restrictions`.  `settingsRes` is the outcome of
the awaited `firestore_store.get_global_settings()`.  Order of checks follows
the source: block list (case-insensitive), then closed-world allow list when
non-empty, then the personal-domain list. -/
def check_domain_restrictions (settingsRes : Except String GlobalSettings)
    (domain : List Char) : CheckResult :=
  match settingsRes with
  | .error e => { allowed := false, reason := "Error checking domain: ".data ++ e.data }
  | .ok settings =>
    if (settings.blockDomains.map pyLower).contains (pyLower domain) then
      { allowed := false
        reason := "Domain ".data ++ domain ++ " is in block list".data }
    else if settings.allowDomains ≠ [] ∧
        ¬ (settings.allowDomains.map pyLower).contains (pyLower domain) then
      { allowed := false
        reason := "Domain ".data ++ domain ++ " not in allow list".data }
    else if personalDomains.contains (pyLower domain) then
      { allowed := false
        reason := "Domain ".data ++ domain ++ " is a personal email domain".data }
    else { allowed := true, reason := "Domain allowed".data }

/-- The `Guardrails._is_valid_email`: the regex
`^[a-zA-Z0-9._%+-]+@[a-zA-Z0-9.-]+\.[a-zA-Z]{2,}$` as a decision procedure.
A string matches iff it splits as `local@rest` with a non-empty `local` over
the local class, and `rest` splits at some dot position `i ≥ 1` into a
non-empty domain part over the domain class and a trailing run of at least
two letters. -/
def localClass (c : Char) : Bool :=
  (65 ≤ c.toNat && c.toNat ≤ 90) || (97 ≤ c.toNat && c.toNat ≤ 122) ||
    (48 ≤ c.toNat && c.toNat ≤ 57) ||
    c.toNat = 46 || c.toNat = 95 || c.toNat = 37 || c.toNat = 43 || c.toNat = 45

/-- Character class `[a-zA-Z0-9.-]` of the email regex's domain part. -/
def domainClass (c : Char) : Bool :=
  (65 ≤ c.toNat && c.toNat ≤ 90) || (97 ≤ c.toNat && c.toNat ≤ 122) ||
    (48 ≤ c.toNat && c.toNat ≤ 57) || c.toNat = 46 || c.toNat = 45

/-- Character class `[a-zA-Z]` of the email regex's TLD part. -/
def alphaClass (c : Char) : Bool :=
  (65 ≤ c.toNat && c.toNat ≤ 90) || (97 ≤ c.toNat && c.toNat ≤ 122)

/-- See `localClass`. -/
def is_valid_email (email : List Char) : Bool :=
  match email.splitOn (Char.ofNat 64) with
  | [loc, rest] =>
    loc ≠ [] && loc.all localClass &&
      (List.range rest.length).any (fun i =>
        decide (1 ≤ i) && (rest.take i).all domainClass &&
          (match rest.drop i with
           | c :: tail => c.toNat = 46 && tail ≠ [] && decide (2 ≤ tail.length) &&
               tail.all alphaClass
           | [] => false))
  | _ => false

/-- The optional-field lead dictionary passed to
`Guardrails.validate_lead_data`; `lead_data.get(field)` with a missing or
falsy value is the empty string here, and `confidence` defaults to 0. -/
structure LeadData where
  company : List Char := []
  email : List Char := []
  domain : List Char := []
  confidence : Float := 0.0

/-- Result dictionary of `Guardrails.validate_lead_data`. -/
structure ValidationResult where
  valid : Bool
  errors : List (List Char)
  warnings : List (List Char)
deriving DecidableEq

/-- The `Guardrails.validate_lead_data`.  `exc` models an exception raised
anywhere inside the `try` body (caught by the `except` branch); `settingsRes`
is the settings read performed by the inner `check_domain_restrictions`
call. -/
def validate_lead_data (exc : Option String)
    (settingsRes : Except String GlobalSettings) (ld : LeadData) :
    ValidationResult :=
  match exc with
  | some e =>
    { valid := false
      errors := ["Validation error: ".data ++ e.data]
      warnings := [] }
  | none =>
    let fieldErrors :=
      (if ld.company = [] then ["Missing required field: company".data] else []) ++
        (if ld.email = [] then ["Missing required field: email".data] else []) ++
          (if ld.domain = [] then ["Missing required field: domain".data] else [])
    let emailErrors :=
      if ld.email ≠ [] ∧ ¬ is_valid_email ld.email then
        ["Invalid email format: ".data ++ ld.email]
      else []
    let domainErrors :=
      if ld.domain ≠ [] then
        let dc := check_domain_restrictions settingsRes ld.domain
        if ¬ dc.allowed then [dc.reason] else []
      else []
    let errors := fieldErrors ++ emailErrors ++ domainErrors
    let confWarnings :=
      if ld.confidence < 0.3 then ["Low confidence score for lead data".data] else []
    let companyWarnings :=
      if ld.company ≠ [] ∧ ld.company.length < 2 then
        ["Company name seems too short".data]
      else []
    { valid := errors = []
      errors := errors
      warnings := confWarnings ++ companyWarnings }

/-- The `Guardrails.check_crawl_permission`: `True` when robots respect is
disabled; otherwise the awaited `web_searcher.can_fetch` outcome, with a
raised exception defaulting to `True` (fail-open). -/
def check_crawl_permission (cfg : GuardrailsCfg)
    (canFetch : Except String Bool) : Bool :=
  if ¬ cfg.respect_robots then true
  else
    match canFetch with
    | .error _ => true
    | .ok b => b

/-! ### Planner (agents/planner.py) -/

/-- The campaign-config fields `TaskPlanner.plan_search_terms` reads:
`industry`, `geo.center_city`, `geo.state` and `keywords`, each defaulting to
empty. -/
structure PlannerConfig where
  industry : String := ""
  center_city : String := ""
  state : String := ""
  keywords : List String := []

/-- The `TaskPlanner.plan_search_terms`: the Python loop, appending to
`search_terms` in order, then the two generic terms, truncated to 10. -/
def plan_search_terms (cfg : PlannerConfig) : List String :=
  let location :=
    if cfg.center_city ≠ "" ∧ cfg.state ≠ "" then
      cfg.center_city ++ ", " ++ cfg.state
    else if cfg.state ≠ "" then cfg.state
    else ""
  let base := cfg.keywords.foldl (fun acc keyword =>
    if location ≠ "" then
      acc ++ [keyword ++ " " ++ location,
        cfg.industry ++ " " ++ keyword ++ " " ++ location]
    else acc ++ [cfg.industry ++ " " ++ keyword]) []
  let terms :=
    if cfg.industry ≠ "" ∧ location ≠ "" then
      base ++ [cfg.industry ++ " services " ++ location,
        cfg.industry ++ " clinic " ++ location]
    else base
  terms.take 10

/-- The search-term algorithm as §4.2 of the specification words it: for each
keyword emit the keyword+location and industry+keyword+location terms when
the location is known, else industry+keyword; append two generic
industry+location terms when both industry and location are present; truncate
to 10. -/
def plan_search_terms_spec (cfg : PlannerConfig) : List String :=
  let location :=
    if cfg.center_city ≠ "" ∧ cfg.state ≠ "" then
      cfg.center_city ++ ", " ++ cfg.state
    else if cfg.state ≠ "" then cfg.state
    else ""
  ((cfg.keywords.flatMap (fun keyword =>
      if location ≠ "" then
        [keyword ++ " " ++ location,
          cfg.industry ++ " " ++ keyword ++ " " ++ location]
      else [cfg.industry ++ " " ++ keyword])) ++
    (if cfg.industry ≠ "" ∧ location ≠ "" then
      [cfg.industry ++ " services " ++ location,
        cfg.industry ++ " clinic " ++ location]
    else [])).take 10

/-! ### Draft routes (routes/drafts.py)

The in-memory `drafts_db` dictionary holds plain string-keyed dicts with
string statuses.  Each handler creates a `{"draftId": ..., "status": "draft"}`
record when the id is absent, then overwrites the status — no precondition on
the current status, and neither Guardrails nor Compliance is consulted. -/

/-- A record of the routes/drafts.py `drafts_db` dictionary. -/
structure RouteDraft where
  draftId : String
  status : String
  messageId : Option String := none
deriving DecidableEq

/-- The `drafts_db` of routes/drafts.py. -/
def RouteDraftsDb := List (String × RouteDraft)

/-- Response of `approve_draft` / `reject_draft` in routes/drafts.py. -/
structure OkResponse where
  ok : Bool
  draftId : String
deriving DecidableEq

/-- Response of `send_draft` in routes/drafts.py. -/
structure SentResponse where
  sent : Bool
  messageId : String
  draftId : String
deriving DecidableEq

/-- The `if draft_id not in drafts_db:` insertion shared by the three
handlers. -/
def ensureRouteDraft (db : RouteDraftsDb) (draft_id : String) : RouteDraftsDb :=
  match List.lookup draft_id db with
  | none => setDoc draft_id { draftId := draft_id, status := "draft" } db
  | some _ => db

/-- The `approve_draft` of routes/drafts.py. -/
def approve_draft (db : RouteDraftsDb) (draft_id : String) :
    RouteDraftsDb × OkResponse :=
  let db1 := ensureRouteDraft db draft_id
  match List.lookup draft_id db1 with
  | some dr =>
    (setDoc draft_id { dr with status := "approved" } db1,
     { ok := true, draftId := draft_id })
  | none => (db1, { ok := true, draftId := draft_id })

/-- The `reject_draft` of routes/drafts.py. -/
def reject_draft (db : RouteDraftsDb) (draft_id : String) :
    RouteDraftsDb × OkResponse :=
  let db1 := ensureRouteDraft db draft_id
  match List.lookup draft_id db1 with
  | some dr =>
    (setDoc draft_id { dr with status := "rejected" } db1,
     { ok := true, draftId := draft_id })
  | none => (db1, { ok := true, draftId := draft_id })

/-- The `send_draft` of routes/drafts.py: unconditionally marks the draft sent
and fabricates a message id. -/
def send_draft (db : RouteDraftsDb) (draft_id : String) :
    RouteDraftsDb × SentResponse :=
  let db1 := ensureRouteDraft db draft_id
  match List.lookup draft_id db1 with
  | some dr =>
    (setDoc draft_id
      { dr with status := "sent", messageId := some ("sg_demo_" ++ draft_id) } db1,
     { sent := true, messageId := "sg_demo_" ++ draft_id, draftId := draft_id })
  | none =>
    (db1, { sent := true, messageId := "sg_demo_" ++ draft_id, draftId := draft_id })

/-- A record of the api/index.py `drafts_db` dictionary (the fields the
`send_draft` handler touches). -/
structure ApiDraft where
  draftId : String
  jobId : String
  status : String
  messageId : Option String := none
deriving DecidableEq

/-- The `send_draft` of api/index.py: 404 (`none`) when the draft is absent;
otherwise marks it sent with no status precondition and no guardrail or
compliance call, bumping the owning job's `sentCount` when that job exists.
`uuidHex` is the fresh `uuid.uuid4().hex[:8]` value. -/
def api_send_draft (drafts : List (String × ApiDraft))
    (jobsSent : List (String × Nat)) (uuidHex : String) (draft_id : String) :
    Option (List (String × ApiDraft) × List (String × Nat) × SentResponse) :=
  match List.lookup draft_id drafts with
  | none => none
  | some dr =>
    let msg := "sg_" ++ uuidHex
    let drafts1 :=
      setDoc draft_id { dr with status := "sent", messageId := some msg } drafts
    let jobs1 := match List.lookup dr.jobId jobsSent with
      | some n => setDoc dr.jobId (n + 1) jobsSent
      | none => jobsSent
    some (drafts1, jobs1, { sent := true, messageId := msg, draftId := draft_id })

/-! ### Helper lemmas: characters -/

theorem char_toNat_ofNatAux (n : Nat) (h : n.isValidChar) :
    (Char.ofNatAux n h).toNat = n := by
  simp [Char.ofNatAux, Char.toNat, UInt32.toNat, BitVec.toNat_ofNatLt]

theorem char_toNat_ofNat (n : Nat) (h : n.isValidChar) :
    (Char.ofNat n).toNat = n := by
  simp [Char.ofNat, h, char_toNat_ofNatAux]

/-- ASCII case folding does not change whitespace membership. -/
theorem pyIsSpace_pyToLower (c : Char) :
    pyIsSpace (pyToLower c) = pyIsSpace c := by
  unfold pyToLower
  split
  · next h =>
    have ht : (Char.ofNat (c.toNat + 32)).toNat = c.toNat + 32 :=
      char_toNat_ofNat _ (Or.inl (by omega))
    have h1 : pyIsSpace (Char.ofNat (c.toNat + 32)) = false := by
      simp [pyIsSpace, ht]; omega
    have h2 : pyIsSpace c = false := by
      simp [pyIsSpace]; omega
    rw [h1, h2]
  · rfl

/-! ### Helper lemmas: prefixes and contiguous occurrences -/

theorem prefix_as_occ {x y : List Char} (h : x <+: y) : x <:+: y := by
  obtain ⟨t, ht⟩ := h
  exact ⟨[], t, by simpa using ht⟩

theorem occ_append_right {x y : List Char} (z : List Char) (h : x <:+: y) :
    x <:+: y ++ z := by
  obtain ⟨s, t, rfl⟩ := h
  exact ⟨s, t ++ z, by simp⟩

theorem occ_append_left {x y : List Char} (z : List Char) (h : x <:+: y) :
    x <:+: z ++ y := by
  obtain ⟨s, t, rfl⟩ := h
  exact ⟨z ++ s, t, by simp⟩

theorem occ_of_append (z x : List Char) : x <:+: z ++ x :=
  ⟨z, [], by simp⟩

theorem occ_cons_ext {x b : List Char} (c : Char) (h : x <:+: b) :
    x <:+: c :: b := by
  obtain ⟨s, t, rfl⟩ := h
  exact ⟨c :: s, t, by simp⟩

theorem occ_cons_split {x : List Char} {a : Char} {z : List Char}
    (h : x <:+: a :: z) : x <+: a :: z ∨ x <:+: z := by
  obtain ⟨s, t, hh⟩ := h
  cases s with
  | nil => exact Or.inl ⟨t, by simpa using hh⟩
  | cons b s' =>
    injection hh with h1 h2
    exact Or.inr ⟨s', t, h2⟩

theorem prefix_cons_inv {x : List Char} {a b : Char} {y : List Char}
    (h : a :: x <+: b :: y) : a = b ∧ x <+: y := by
  obtain ⟨t, ht⟩ := h
  injection ht with h1 h2
  exact ⟨h1, t, h2⟩

theorem prefix_split {x y z : List Char} (h : x <+: y ++ z) :
    x <+: y ∨ ∃ x2, x = y ++ x2 ∧ x2 <+: z := by
  induction y generalizing x with
  | nil => exact Or.inr ⟨x, by simp, by simpa using h⟩
  | cons a y' ih =>
    cases x with
    | nil => exact Or.inl ⟨a :: y', rfl⟩
    | cons c x' =>
      obtain ⟨rfl, h2⟩ := prefix_cons_inv (by simpa using h)
      rcases ih h2 with h3 | ⟨x2, rfl, h4⟩
      · obtain ⟨t, ht⟩ := h3
        exact Or.inl ⟨t, by simp [ht]⟩
      · exact Or.inr ⟨x2, by simp, h4⟩

theorem map_occ (f : Char → Char) {x y : List Char} (h : x <:+: y) :
    x.map f <:+: y.map f := by
  obtain ⟨s, t, rfl⟩ := h
  exact ⟨s.map f, t.map f, by simp⟩

theorem reverse_occ {x y : List Char} (h : x <:+: y) :
    x.reverse <:+: y.reverse := by
  obtain ⟨s, t, rfl⟩ := h
  exact ⟨t.reverse, s.reverse, by simp⟩

theorem occ_trans {x y z : List Char} (h1 : x <:+: y) (h2 : y <:+: z) :
    x <:+: z := by
  obtain ⟨s1, t1, rfl⟩ := h1
  obtain ⟨s2, t2, rfl⟩ := h2
  exact ⟨s2 ++ s1, t1 ++ t2, by simp⟩

theorem not_occ_nil {x : List Char} (hx : x ≠ []) : ¬ x <:+: [] := by
  intro h
  obtain ⟨s, t, hh⟩ := h
  simp at hh
  exact hx hh.2.1

/-! ### Helper lemmas: `pyRstrip` -/

theorem dropWhile_length_le (p : Char → Bool) (l : List Char) :
    (l.dropWhile p).length ≤ l.length := by
  induction l with
  | nil => simp
  | cons a l ih =>
    by_cases h : p a
    · simp only [List.dropWhile_cons, h, if_pos]
      exact Nat.le_trans ih (by simp)
    · simp [List.dropWhile_cons, h]

theorem rstrip_self_head {u : List Char} (hu : u ≠ [])
    (hr : pyRstrip u = u) :
    ∃ c r, u.reverse = c :: r ∧ pyIsSpace c = false := by
  cases hrev : u.reverse with
  | nil =>
    exact absurd (by simpa using congrArg List.reverse hrev) hu
  | cons c r =>
    refine ⟨c, r, rfl, ?_⟩
    by_contra hc
    have hc' : pyIsSpace c = true := by
      cases h : pyIsSpace c
      · exact absurd h hc
      · rfl
    have hlen : (pyRstrip u).length = u.length := by rw [hr]
    have : (List.dropWhile pyIsSpace (c :: r)).length ≤ r.length := by
      simp only [List.dropWhile_cons, hc', if_pos]
      exact dropWhile_length_le _ _
    have hru : u.length = r.length + 1 := by
      have := congrArg List.length hrev
      simpa using this
    simp only [pyRstrip, hrev] at hlen
    simp only [List.length_reverse] at hlen
    omega

theorem pyRstrip_append_of_rstrip_self {u : List Char} (z : List Char)
    (hu : u ≠ []) (hr : pyRstrip u = u) :
    pyRstrip (z ++ u) = z ++ u := by
  obtain ⟨c, r, hrev, hc⟩ := rstrip_self_head hu hr
  have h1 : (z ++ u).reverse = c :: (r ++ z.reverse) := by
    rw [List.reverse_append, hrev, List.cons_append]
  unfold pyRstrip
  rw [h1, List.dropWhile_cons, hc]
  simp only [if_neg Bool.false_ne_true]
  rw [← h1, List.reverse_reverse]

theorem pyRstrip_decomp (s : List Char) : ∃ w, s = pyRstrip s ++ w := by
  refine ⟨(s.reverse.takeWhile pyIsSpace).reverse, ?_⟩
  unfold pyRstrip
  rw [← List.reverse_append, List.takeWhile_append_dropWhile, List.reverse_reverse]

theorem occ_of_occ_rstrip {x y : List Char} (h : x <:+: pyRstrip y) :
    x <:+: y := by
  obtain ⟨w, hw⟩ := pyRstrip_decomp y
  rw [hw]
  exact occ_append_right w h

theorem occ_dropWhile_of_head {c : Char} {xs z : List Char}
    (hc : pyIsSpace c = false) (h : (c :: xs) <:+: z) :
    (c :: xs) <:+: z.dropWhile pyIsSpace := by
  induction z with
  | nil => exact absurd h (not_occ_nil (by simp))
  | cons a z' ih =>
    by_cases ha : pyIsSpace a
    · rw [List.dropWhile_cons, if_pos ha]
      rcases occ_cons_split h with hp | hi
      · obtain ⟨rfl, _⟩ := prefix_cons_inv hp
        rw [ha] at hc
        exact absurd hc (by simp)
      · exact ih hi
    · rw [List.dropWhile_cons, if_neg ha]
      exact h

theorem occ_survives_rstrip {x y : List Char} (hx : x ≠ [])
    (hxr : pyRstrip x = x) (h : x <:+: y) : x <:+: pyRstrip y := by
  obtain ⟨c, r, hrev, hc⟩ := rstrip_self_head hx hxr
  have h1 : x.reverse <:+: y.reverse := reverse_occ h
  rw [hrev] at h1
  have h2 := occ_dropWhile_of_head hc h1
  have h3 := reverse_occ h2
  rw [← hrev, List.reverse_reverse] at h3
  exact h3

theorem dropWhile_map_pyToLower (l : List Char) :
    (l.map pyToLower).dropWhile pyIsSpace =
      (l.dropWhile pyIsSpace).map pyToLower := by
  induction l with
  | nil => rfl
  | cons a l ih =>
    cases ha : pyIsSpace a with
    | true =>
      have : pyIsSpace (pyToLower a) = true := by
        rw [pyIsSpace_pyToLower, ha]
      simp [List.dropWhile_cons, this, ha, ih]
    | false =>
      have : pyIsSpace (pyToLower a) = false := by
        rw [pyIsSpace_pyToLower, ha]
      simp [List.dropWhile_cons, this, ha]

theorem pyLower_pyRstrip (s : List Char) :
    pyLower (pyRstrip s) = pyRstrip (pyLower s) := by
  unfold pyLower pyRstrip
  rw [List.map_reverse, ← dropWhile_map_pyToLower, List.map_reverse]

/-! ### Helper lemmas: counting contiguous occurrences -/

/-- The number of start positions at which `x` occurs contiguously in `b`
(one candidate start per suffix of `b`, the empty suffix included). -/
def countOcc (x : List Char) : List Char → Nat
  | [] => if x <+: ([] : List Char) then 1 else 0
  | c :: b => (if x <+: c :: b then 1 else 0) + countOcc x b

theorem countOcc_nil {x : List Char} (hx : x ≠ []) : countOcc x [] = 0 := by
  simp [countOcc, hx]

theorem prefix_append_nl_iff {x : List Char} (hnl : nl ∉ x) (y z : List Char) :
    x <+: y ++ nl :: z ↔ x <+: y := by
  constructor
  · intro h
    rcases prefix_split h with h1 | ⟨x2, rfl, h2⟩
    · exact h1
    · cases x2 with
      | nil => simp
      | cons d x2' =>
        obtain ⟨rfl, _⟩ := prefix_cons_inv h2
        exact absurd (by simp : nl ∈ y ++ nl :: x2') hnl
  · intro h
    obtain ⟨t, rfl⟩ := h
    exact ⟨t ++ nl :: z, by simp⟩

theorem countOcc_append_nl {x : List Char} (hx : x ≠ []) (hnl : nl ∉ x)
    (y z : List Char) :
    countOcc x (y ++ nl :: z) = countOcc x y + countOcc x z := by
  induction y with
  | nil =>
    simp only [List.nil_append, countOcc]
    have hnp : ¬ x <+: nl :: z := by
      intro h
      cases x with
      | nil => exact hx rfl
      | cons c x' =>
        obtain ⟨rfl, _⟩ := prefix_cons_inv h
        exact hnl (by simp)
    rw [if_neg hnp, if_neg (by simp [List.prefix_nil, hx] : ¬ x <+: ([] : List Char))]
  | cons a y' ih =>
    have hcons : (a :: y') ++ nl :: z = a :: (y' ++ nl :: z) := rfl
    rw [hcons]
    simp only [countOcc]
    rw [ih]
    have hiff : (x <+: a :: (y' ++ nl :: z)) ↔ (x <+: a :: y') :=
      prefix_append_nl_iff hnl (a :: y') z
    by_cases hp : x <+: a :: y'
    · rw [if_pos (hiff.mpr hp), if_pos hp]; omega
    · rw [if_neg (fun h => hp (hiff.mp h)), if_neg hp]; omega

theorem countOcc_eq_zero_iff {x : List Char} (hx : x ≠ []) (b : List Char) :
    countOcc x b = 0 ↔ ¬ x <:+: b := by
  induction b with
  | nil =>
    rw [countOcc_nil hx]
    simp [not_occ_nil hx]
  | cons c b ih =>
    simp only [countOcc]
    by_cases hp : x <+: c :: b
    · have := prefix_as_occ hp
      simp [hp, this]
    · simp only [if_neg hp, Nat.zero_add, ih]
      constructor
      · intro h1 h2
        rcases occ_cons_split h2 with h3 | h3
        · exact hp h3
        · exact h1 h3
      · intro h1 h2
        exact h1 (occ_cons_ext c h2)

/-! ### Helper lemmas: compliance body processing -/

theorem pyLower_append (a b : List Char) :
    pyLower (a ++ b) = pyLower a ++ pyLower b := by
  simp [pyLower]

theorem pyLower_cons (c : Char) (b : List Char) :
    pyLower (c :: b) = pyToLower c :: pyLower b := rfl

theorem pyLower_ne_nil {a : List Char} (h : a ≠ []) : pyLower a ≠ [] := by
  cases a with
  | nil => exact absurd rfl h
  | cons c r => simp [pyLower]

theorem occ_tail1 (A B : List Char) (c1 : Char) : B <:+: A ++ c1 :: B :=
  ⟨A ++ [c1], [], by simp⟩

theorem occ_tail2 (A B : List Char) (c1 c2 : Char) :
    B <:+: A ++ c1 :: c2 :: B :=
  ⟨A ++ [c1, c2], [], by simp⟩

theorem has_unsubscribe_eq_true {b U : List Char} (hU : U ≠ []) :
    has_unsubscribe_text b U = true ↔
      (pyLower U <:+: pyLower b ∨
        ∃ k ∈ unsubscribeKeywords, k <:+: pyLower b) := by
  simp [has_unsubscribe_text, hU, List.any_eq_true]

theorem has_unsubscribe_eq_false {b U : List Char} (hU : U ≠ []) :
    has_unsubscribe_text b U = false ↔
      (¬ pyLower U <:+: pyLower b ∧
        ∀ k ∈ unsubscribeKeywords, ¬ k <:+: pyLower b) := by
  rw [← Bool.not_eq_true, has_unsubscribe_eq_true hU]
  push_neg
  rfl

theorem has_legal_eq_true {b L : List Char} (hL : L ≠ []) :
    has_legal_address b L = true ↔ L <:+: b := by
  simp [has_legal_address, hL]

theorem has_legal_eq_false {b L : List Char} (hL : L ≠ []) :
    has_legal_address b L = false ↔ ¬ L <:+: b := by
  rw [← Bool.not_eq_true, has_legal_eq_true hL]

theorem add_unsubscribe_eq {U : List Char} (b : List Char) (hU : U ≠ []) :
    add_unsubscribe_text b U = pyRstrip b ++ nl :: nl :: U := by
  simp [add_unsubscribe_text, hU]

theorem add_legal_eq {L : List Char} (b : List Char) (hL : L ≠ []) :
    add_legal_address b L = pyRstrip b ++ nl :: L := by
  simp [add_legal_address, hL]

/-- Every unsubscribe keyword is non-empty and free of trailing
whitespace. -/
theorem keywords_rstrip_self :
    ∀ k ∈ unsubscribeKeywords, k ≠ [] ∧ pyRstrip k = k := by decide

/-- An occurrence without trailing whitespace survives in the lower-cased
rstripped body extended on the right. -/
theorem occ_lower_final {o b : List Char} (rest : List Char)
    (ho : o ≠ []) (hor : pyRstrip o = o) (h : o <:+: pyLower b) :
    o <:+: pyLower (pyRstrip b) ++ rest := by
  apply occ_append_right
  rw [pyLower_pyRstrip]
  exact occ_survives_rstrip ho hor h

/-- After `ensure_email_compliance`, the body passes the unsubscribe-text
check again, provided the configured text is non-empty without trailing
whitespace and the configured legal address is non-empty. -/
theorem modified_body_hasU (s : GlobalSettings) (subject body : List Char)
    (h1 : s.unsubscribeText ≠ [])
    (h2 : pyRstrip s.unsubscribeText = s.unsubscribeText)
    (h3 : s.legalAddress ≠ []) :
    has_unsubscribe_text
      (ensure_email_compliance s subject body).modified_body
        s.unsubscribeText = true := by
  have hUlr : pyRstrip (pyLower s.unsubscribeText) = pyLower s.unsubscribeText := by
    rw [← pyLower_pyRstrip, h2]
  have hUln : pyLower s.unsubscribeText ≠ [] := pyLower_ne_nil h1
  simp only [ensure_email_compliance]
  by_cases hu : has_unsubscribe_text body s.unsubscribeText = true
  · rw [if_pos hu]
    by_cases hl : has_legal_address body s.legalAddress = true
    · rw [if_pos hl]
      exact hu
    · rw [if_neg hl]
      unfold add_legal_address
      rw [if_neg h3]
      rw [has_unsubscribe_eq_true h1] at hu ⊢
      rcases hu with ho | ⟨k, hk, ho⟩
      · left
        rw [pyLower_append, pyLower_cons]
        exact occ_lower_final _ hUln hUlr ho
      · right
        refine ⟨k, hk, ?_⟩
        obtain ⟨hk1, hk2⟩ := keywords_rstrip_self k hk
        rw [pyLower_append, pyLower_cons]
        exact occ_lower_final _ hk1 hk2 ho
  · rw [if_neg hu]
    unfold add_unsubscribe_text
    rw [if_neg h1]
    have hb1r : pyRstrip (pyRstrip body ++ nl :: nl :: s.unsubscribeText) =
        pyRstrip body ++ nl :: nl :: s.unsubscribeText := by
      have hin : pyRstrip ([nl, nl] ++ s.unsubscribeText) =
          [nl, nl] ++ s.unsubscribeText :=
        pyRstrip_append_of_rstrip_self [nl, nl] h1 h2
      have := pyRstrip_append_of_rstrip_self (u := [nl, nl] ++ s.unsubscribeText)
        (pyRstrip body) (by simp) hin
      simpa using this
    by_cases hl : has_legal_address
        (pyRstrip body ++ nl :: nl :: s.unsubscribeText) s.legalAddress = true
    · rw [if_pos hl]
      rw [has_unsubscribe_eq_true h1]
      left
      rw [pyLower_append, pyLower_cons, pyLower_cons]
      exact occ_tail2 _ _ _ _
    · rw [if_neg hl]
      unfold add_legal_address
      rw [if_neg h3, hb1r]
      rw [has_unsubscribe_eq_true h1]
      left
      rw [pyLower_append, pyLower_cons]
      apply occ_append_right
      rw [pyLower_append, pyLower_cons, pyLower_cons]
      exact occ_tail2 _ _ _ _

/-- After `ensure_email_compliance`, the body passes the legal-address check
again, provided the configured address is non-empty. -/
theorem modified_body_hasL (s : GlobalSettings) (subject body : List Char)
    (h3 : s.legalAddress ≠ []) :
    has_legal_address
      (ensure_email_compliance s subject body).modified_body
        s.legalAddress = true := by
  simp only [ensure_email_compliance]
  by_cases hl : has_legal_address
      (if has_unsubscribe_text body s.unsubscribeText = true then body
       else add_unsubscribe_text body s.unsubscribeText) s.legalAddress = true
  · rw [if_pos hl]
    exact hl
  · rw [if_neg hl]
    unfold add_legal_address
    rw [if_neg h3]
    rw [has_legal_eq_true h3]
    exact occ_tail1 _ _ _

/-- When both disclosure checks already pass, `ensure_email_compliance`
returns the body unchanged. -/
theorem ensure_no_change (s : GlobalSettings) (subject b : List Char)
    (hu : has_unsubscribe_text b s.unsubscribeText = true)
    (hl : has_legal_address b s.legalAddress = true) :
    ensure_email_compliance s subject b =
      { compliant := validate_subject subject && (validate_body_content b).1
        modified_subject := subject
        modified_body := b
        issues := (validate_body_content b).2
        subject_approved := validate_subject subject
        body_approved := (validate_body_content b).1 } := by
  simp only [ensure_email_compliance, if_pos hu, if_pos hl]

/-- The `GlobalSettings()` with pydantic defaults, as `get_global_settings`
returns when no settings document exists. -/
def defaultSettings : GlobalSettings := {}

/-- C5 (amended): `ensure_email_compliance` is idempotent — applying it to
its own `modified_body` returns the identical result record (same
`modified_body`, same `issues`) — provided the configured unsubscribe text
is non-empty without trailing whitespace and the configured legal address is
non-empty (the defaults satisfy this).  With an empty configured disclosure
the function re-appends its fallback text on every run (see the
counterexample). -/
theorem c5_ensure_email_compliance_idem (s : GlobalSettings)
    (subject body : List Char)
    (h1 : s.unsubscribeText ≠ [])
    (h2 : pyRstrip s.unsubscribeText = s.unsubscribeText)
    (h3 : s.legalAddress ≠ []) :
    ensure_email_compliance s subject
        (ensure_email_compliance s subject body).modified_body =
      ensure_email_compliance s subject body := by
  have hu := modified_body_hasU s subject body h1 h2 h3
  have hl := modified_body_hasL s subject body h3
  rw [ensure_no_change s subject _ hu hl]
  simp only [ensure_email_compliance]

set_option maxRecDepth 100000 in
/-- Witness for C5: the default settings satisfy the hypotheses, and the
idempotence equation holds at a concrete body. -/
theorem c5_witness :
    defaultSettings.unsubscribeText ≠ [] ∧
    pyRstrip defaultSettings.unsubscribeText = defaultSettings.unsubscribeText ∧
    defaultSettings.legalAddress ≠ [] ∧
    ensure_email_compliance defaultSettings "Hi".data
        (ensure_email_compliance defaultSettings "Hi".data
          "Hello.".data).modified_body =
      ensure_email_compliance defaultSettings "Hi".data "Hello.".data :=
  ⟨by decide, by decide, by decide,
    c5_ensure_email_compliance_idem defaultSettings "Hi".data "Hello.".data
      (by decide) (by decide) (by decide)⟩

set_option maxRecDepth 100000 in
/-- Counterexample for C5 as stated: with an empty configured
`unsubscribeText` (a representable settings document), the second run
appends the fallback unsubscribe text again, so
`f(f(x)).modified_body ≠ f(x).modified_body`. -/
theorem c5_counterexample :
    (ensure_email_compliance { unsubscribeText := [] } "Hi".data
        (ensure_email_compliance { unsubscribeText := [] } "Hi".data
          "Hello.".data).modified_body).modified_body ≠
      (ensure_email_compliance { unsubscribeText := [] } "Hi".data
        "Hello.".data).modified_body := by decide

set_option maxRecDepth 100000 in
/-- C6: for a body containing neither the configured (default) unsubscribe
text nor any unsubscribe keyword nor the configured legal address, the
compliance-processed body is the rstripped original body followed by the
unsubscribe text and then the legal address, and each disclosure occurs in
it exactly once (and in that order, as the appended shape shows). -/
theorem c6_compliance_appends_disclosures (subject body : List Char)
    (hu : has_unsubscribe_text body defaultUnsubscribeText = false)
    (hl : has_legal_address body defaultLegalAddress = false) :
    (ensure_email_compliance defaultSettings subject body).modified_body =
      (pyRstrip body ++ nl :: nl :: defaultUnsubscribeText) ++
        nl :: defaultLegalAddress ∧
    countOcc defaultUnsubscribeText
      ((ensure_email_compliance defaultSettings subject body).modified_body) = 1 ∧
    countOcc defaultLegalAddress
      ((ensure_email_compliance defaultSettings subject body).modified_body) = 1 := by
  have hUne : defaultUnsubscribeText ≠ [] := by decide
  have hLne : defaultLegalAddress ≠ [] := by decide
  have hUr : pyRstrip defaultUnsubscribeText = defaultUnsubscribeText := by decide
  have hnlU : nl ∉ defaultUnsubscribeText := by decide
  have hnlL : nl ∉ defaultLegalAddress := by decide
  have hsU : defaultSettings.unsubscribeText = defaultUnsubscribeText := rfl
  have hsL : defaultSettings.legalAddress = defaultLegalAddress := rfl
  have hnoL : ¬ defaultLegalAddress <:+: body := (has_legal_eq_false hLne).mp hl
  have hnoU : ¬ pyLower defaultUnsubscribeText <:+: pyLower body :=
    ((has_unsubscribe_eq_false hUne).mp hu).1
  have hcL0 : countOcc defaultLegalAddress (pyRstrip body) = 0 :=
    (countOcc_eq_zero_iff hLne _).mpr (fun h => hnoL (occ_of_occ_rstrip h))
  have hcU0 : countOcc defaultUnsubscribeText (pyRstrip body) = 0 := by
    apply (countOcc_eq_zero_iff hUne _).mpr
    intro h
    exact hnoU (map_occ pyToLower (occ_of_occ_rstrip h))
  have hb1 : ¬ defaultLegalAddress <:+:
      (pyRstrip body ++ nl :: nl :: defaultUnsubscribeText) := by
    apply (countOcc_eq_zero_iff hLne _).mp
    rw [countOcc_append_nl hLne hnlL]
    have h2 : countOcc defaultLegalAddress (nl :: defaultUnsubscribeText) = 0 := by
      have ha := countOcc_append_nl hLne hnlL [] defaultUnsubscribeText
      simp only [List.nil_append] at ha
      rw [ha, countOcc_nil hLne,
        (by decide : countOcc defaultLegalAddress defaultUnsubscribeText = 0)]
    rw [hcL0, h2]
  have hfalseL : has_legal_address
      (pyRstrip body ++ nl :: nl :: defaultUnsubscribeText)
        defaultLegalAddress = false := (has_legal_eq_false hLne).mpr hb1
  have hb1r : pyRstrip (pyRstrip body ++ nl :: nl :: defaultUnsubscribeText) =
      pyRstrip body ++ nl :: nl :: defaultUnsubscribeText := by
    have hin : pyRstrip ([nl, nl] ++ defaultUnsubscribeText) =
        [nl, nl] ++ defaultUnsubscribeText :=
      pyRstrip_append_of_rstrip_self [nl, nl] hUne hUr
    have := pyRstrip_append_of_rstrip_self
      (u := [nl, nl] ++ defaultUnsubscribeText) (pyRstrip body) (by simp) hin
    simpa using this
  have hmb : (ensure_email_compliance defaultSettings subject body).modified_body =
      (pyRstrip body ++ nl :: nl :: defaultUnsubscribeText) ++
        nl :: defaultLegalAddress := by
    have hc1 : ¬ (has_unsubscribe_text body defaultUnsubscribeText = true) := by
      simp [hu]
    have hc2 : ¬ (has_legal_address
        (pyRstrip body ++ nl :: nl :: defaultUnsubscribeText)
          defaultLegalAddress = true) := by
      simp [hfalseL]
    simp only [ensure_email_compliance, hsU, hsL]
    rw [if_neg hc1, add_unsubscribe_eq body hUne, if_neg hc2,
      add_legal_eq _ hLne, hb1r]
  have hshape : (pyRstrip body ++ nl :: nl :: defaultUnsubscribeText) ++
      nl :: defaultLegalAddress =
    pyRstrip body ++ nl ::
      (nl :: (defaultUnsubscribeText ++ nl :: defaultLegalAddress)) := by
    simp
  refine ⟨hmb, ?_, ?_⟩
  · rw [hmb, hshape, countOcc_append_nl hUne hnlU]
    have h2 : countOcc defaultUnsubscribeText
        (nl :: (defaultUnsubscribeText ++ nl :: defaultLegalAddress)) = 1 := by
      have ha := countOcc_append_nl hUne hnlU []
        (defaultUnsubscribeText ++ nl :: defaultLegalAddress)
      simp only [List.nil_append] at ha
      rw [ha, countOcc_append_nl hUne hnlU, countOcc_nil hUne,
        (by decide : countOcc defaultUnsubscribeText defaultUnsubscribeText = 1),
        (by decide : countOcc defaultUnsubscribeText defaultLegalAddress = 0)]
    rw [hcU0, h2]
  · rw [hmb, hshape, countOcc_append_nl hLne hnlL]
    have h2 : countOcc defaultLegalAddress
        (nl :: (defaultUnsubscribeText ++ nl :: defaultLegalAddress)) = 1 := by
      have ha := countOcc_append_nl hLne hnlL []
        (defaultUnsubscribeText ++ nl :: defaultLegalAddress)
      simp only [List.nil_append] at ha
      rw [ha, countOcc_append_nl hLne hnlL, countOcc_nil hLne,
        (by decide : countOcc defaultLegalAddress defaultUnsubscribeText = 0),
        (by decide : countOcc defaultLegalAddress defaultLegalAddress = 1)]
    rw [hcL0, h2]

set_option maxRecDepth 100000 in
/-- Witness for C6 at a concrete body lacking both disclosures. -/
theorem c6_witness :
    has_unsubscribe_text "Hello.".data defaultUnsubscribeText = false ∧
    has_legal_address "Hello.".data defaultLegalAddress = false ∧
    (ensure_email_compliance defaultSettings "Hi".data "Hello.".data).modified_body =
      (pyRstrip "Hello.".data ++ nl :: nl :: defaultUnsubscribeText) ++
        nl :: defaultLegalAddress :=
  ⟨by decide, by decide,
    (c6_compliance_appends_disclosures "Hi".data "Hello.".data
      (by decide) (by decide)).1⟩

set_option maxRecDepth 100000 in
/-- Counterexample for C6 as stated: for a body with trailing whitespace
(and no disclosures present), the disclosures follow the body with its
trailing whitespace stripped, not the original body — the original body is
not a prefix of the processed result. -/
theorem c6_counterexample :
    has_unsubscribe_text "Hi ".data defaultUnsubscribeText = false ∧
    has_legal_address "Hi ".data defaultLegalAddress = false ∧
    ¬ ("Hi ".data <+:
      (ensure_email_compliance defaultSettings "s".data
        "Hi ".data).modified_body) := by
  decide

/-- C4: for every global-settings state, `check_domain_restrictions` denies
"gmail.com" — whatever the allow and block lists contain — because the
built-in consumer-domain deny list is evaluated after the block list
(case-insensitive) and the closed-world allow list; and a block-list match
denies regardless of the allow list, as the block list is checked first. -/
theorem c4_gmail_always_denied (settings : GlobalSettings) :
    (check_domain_restrictions (.ok settings) "gmail.com".data).allowed = false ∧
    (∀ d : List Char,
      (settings.blockDomains.map pyLower).contains (pyLower d) = true →
        (check_domain_restrictions (.ok settings) d).allowed = false) := by
  constructor
  · simp only [check_domain_restrictions]
    split
    · rfl
    · split
      · rfl
      · rw [if_pos
          (by decide : personalDomains.contains (pyLower "gmail.com".data) = true)]
  · intro d hd
    simp only [check_domain_restrictions]
    rw [if_pos hd]

/-- Witness for C4: the gmail denial at the default settings, and a
block-list denial with a case-insensitively matching entry. -/
theorem c4_witness :
    (check_domain_restrictions (.ok defaultSettings) "gmail.com".data).allowed
      = false ∧
    (check_domain_restrictions
        (.ok { blockDomains := ["Corp.Example".data] })
        "corp.example".data).allowed = false :=
  ⟨(c4_gmail_always_denied defaultSettings).1,
   (c4_gmail_always_denied { blockDomains := ["Corp.Example".data] }).2
     "corp.example".data (by decide)⟩

theorem foldl_append_flatMap (g : String → List String) (ks : List String) :
    ∀ acc : List String,
      ks.foldl (fun a k => a ++ g k) acc = acc ++ ks.flatMap g := by
  induction ks with
  | nil => intro acc; simp
  | cons k ks ih =>
    intro acc
    simp only [List.foldl_cons, List.flatMap_cons, ih]
    simp

theorem plan_terms_aux (industry loc : String) (ks : List String) :
    (if industry ≠ "" ∧ loc ≠ "" then
      (ks.foldl (fun acc k =>
        if loc ≠ "" then
          acc ++ [k ++ " " ++ loc, industry ++ " " ++ k ++ " " ++ loc]
        else acc ++ [industry ++ " " ++ k]) []) ++
        [industry ++ " services " ++ loc, industry ++ " clinic " ++ loc]
     else
      ks.foldl (fun acc k =>
        if loc ≠ "" then
          acc ++ [k ++ " " ++ loc, industry ++ " " ++ k ++ " " ++ loc]
        else acc ++ [industry ++ " " ++ k]) []).take 10 =
    ((ks.flatMap (fun k =>
        if loc ≠ "" then
          [k ++ " " ++ loc, industry ++ " " ++ k ++ " " ++ loc]
        else [industry ++ " " ++ k])) ++
      (if industry ≠ "" ∧ loc ≠ "" then
        [industry ++ " services " ++ loc, industry ++ " clinic " ++ loc]
      else [])).take 10 := by
  have hbody : (fun (acc : List String) k =>
      if loc ≠ "" then
        acc ++ [k ++ " " ++ loc, industry ++ " " ++ k ++ " " ++ loc]
      else acc ++ [industry ++ " " ++ k]) =
    (fun acc k => acc ++
      (if loc ≠ "" then
        [k ++ " " ++ loc, industry ++ " " ++ k ++ " " ++ loc]
      else [industry ++ " " ++ k])) := by
    funext acc k
    by_cases h : loc ≠ "" <;> simp [h]
  rw [hbody, foldl_append_flatMap]
  by_cases hi : industry ≠ "" ∧ loc ≠ ""
  · rw [if_pos hi, if_pos hi]
    simp
  · rw [if_neg hi, if_neg hi]
    simp

/-- C7: `plan_search_terms` is a pure function of the campaign's industry,
geo and keywords (deterministic by construction: the Python body performs no
IO and uses no randomness), returns at most 10 terms, and computes exactly
the term list described by the specification's algorithm. -/
theorem c7_plan_search_terms_correct (cfg : PlannerConfig) :
    plan_search_terms cfg = plan_search_terms_spec cfg ∧
    (plan_search_terms cfg).length ≤ 10 := by
  constructor
  · exact plan_terms_aux cfg.industry
      (if cfg.center_city ≠ "" ∧ cfg.state ≠ "" then
        cfg.center_city ++ ", " ++ cfg.state
      else if cfg.state ≠ "" then cfg.state else "") cfg.keywords
  · simp only [plan_search_terms]
    rw [List.length_take]
    exact Nat.min_le_left _ _

/-- C3 (amended): given the job exists, `check_send_limits` allows exactly
when `sentCount + planned` stays within both the environment-configured
per-run cap and daily cap of the `Guardrails` instance (equality at the cap
allowed); the campaign record's own `sendCapPerRun` is never consulted. -/
theorem c3_check_send_limits_env_caps (cfg : GuardrailsCfg) (job : Job)
    (planned : Nat) :
    (check_send_limits cfg (.ok (some job)) planned).allowed = true ↔
      (job.sentCount + planned ≤ cfg.send_cap_per_run ∧
        job.sentCount + planned ≤ cfg.daily_send_cap) := by
  simp only [check_send_limits]
  by_cases h1 : job.sentCount + planned > cfg.send_cap_per_run
  · rw [if_pos h1]
    simp only [Bool.false_eq_true, false_iff]
    omega
  · rw [if_neg h1]
    by_cases h2 : job.sentCount + planned > cfg.daily_send_cap
    · rw [if_pos h2]
      simp only [Bool.false_eq_true, false_iff]
      omega
    · rw [if_neg h2]
      simp only [true_iff]
      omega

/-- The campaign of the C3 counterexample, with a per-run cap of 5. -/
def c3Campaign : Campaign :=
  { campaignId := "camp1", name := "Acme Acupuncture", preset := "acu"
    industry := "Acupuncture", geo := [], keywords := ["clinic"]
    sendCapPerRun := 5, dailySendCap := 200 }

/-- The job of the C3 counterexample, owned by `c3Campaign`, with 10 already
sent. -/
def c3Job : Job :=
  { jobId := "job1", campaignId := "camp1", plannedCount := 10, sentCount := 10 }

/-- Counterexample for C3 as stated: the job belongs to a campaign whose
`sendCapPerRun` is 5 and `sentCount + planned = 11 > 5`, yet the check —
which reads only the environment-derived caps (defaults 20/200) and never
the campaign — allows. -/
theorem c3_counterexample :
    c3Job.campaignId = c3Campaign.campaignId ∧
    c3Job.sentCount + 1 > c3Campaign.sendCapPerRun ∧
    (check_send_limits {} (.ok (some c3Job)) 1).allowed = true := by
  refine ⟨rfl, by decide, rfl⟩

/-- C9: the three data-policy checks fail closed on an internal exception —
`allowed = False` (resp. `valid = False`) with the exception text embedded in
the reason, nothing propagating — while `check_crawl_permission` fails open,
returning `True` when its robots check raises and also whenever robots
respect is disabled. -/
theorem c9_policy_exception_behavior :
    (∀ (cfg : GuardrailsCfg) (e : String) (n : Nat),
      (check_send_limits cfg (.error e) n).allowed = false ∧
      (check_send_limits cfg (.error e) n).reason =
        "Error checking limits: ".data ++ e.data) ∧
    (∀ (e : String) (d : List Char),
      (check_domain_restrictions (.error e) d).allowed = false ∧
      (check_domain_restrictions (.error e) d).reason =
        "Error checking domain: ".data ++ e.data) ∧
    (∀ (e : String) (sRes : Except String GlobalSettings) (ld : LeadData),
      (validate_lead_data (some e) sRes ld).valid = false ∧
      (validate_lead_data (some e) sRes ld).errors =
        ["Validation error: ".data ++ e.data]) ∧
    (∀ (cfg : GuardrailsCfg) (e : String),
      check_crawl_permission cfg (.error e) = true) ∧
    (∀ (cfg : GuardrailsCfg) (cf : Except String Bool),
      cfg.respect_robots = false → check_crawl_permission cfg cf = true) := by
  refine ⟨fun cfg e n => ⟨rfl, rfl⟩, fun e d => ⟨rfl, rfl⟩,
    fun e sRes ld => ⟨rfl, rfl⟩, fun cfg e => ?_, fun cfg cf h => ?_⟩
  · unfold check_crawl_permission
    split
    · rfl
    · rfl
  · unfold check_crawl_permission
    rw [if_pos (by simp [h])]

/-- Witness for C9 at concrete error values and a robots-disabled
configuration. -/
theorem c9_witness :
    (check_send_limits {} (.error "boom") 1).allowed = false ∧
    ({ respect_robots := false } : GuardrailsCfg).respect_robots = false ∧
    check_crawl_permission { respect_robots := false } (.ok false) = true :=
  ⟨(c9_policy_exception_behavior.1 {} "boom" 1).1, rfl,
    c9_policy_exception_behavior.2.2.2.2 { respect_robots := false }
      (.ok false) rfl⟩

/-- C1 (amended): the send handlers accept the send regardless of the
draft's current status and invoke neither Guardrails nor Compliance (their
definitions take no policy input at all): `send_draft` of routes/drafts.py
reports `sent = True` and sets status "sent" for every draft id, creating a
fresh record when absent; `send_draft` of api/index.py does the same for
every existing draft, whatever its status. -/
theorem c1_send_draft_unconditional (db : RouteDraftsDb) (id : String) :
    (send_draft db id).2.sent = true ∧
    (List.lookup id (send_draft db id).1).map RouteDraft.status = some "sent" ∧
    (∀ (drafts : List (String × ApiDraft)) (jobs : List (String × Nat))
        (uuidHex : String) (dr : ApiDraft),
      List.lookup id drafts = some dr →
      ∃ out, api_send_draft drafts jobs uuidHex id = some out ∧
        out.2.2.sent = true ∧
        (List.lookup id out.1).map ApiDraft.status = some "sent") := by
  have hsome : ∃ dr, List.lookup id (ensureRouteDraft db id) = some dr := by
    unfold ensureRouteDraft
    cases h : List.lookup id db with
    | none =>
      exact ⟨{ draftId := id, status := "draft" }, by simp [setDoc, List.lookup]⟩
    | some dr => exact ⟨dr, by simp [h]⟩
  obtain ⟨dr, hdr⟩ := hsome
  refine ⟨?_, ?_, ?_⟩
  · simp [send_draft, hdr]
  · simp [send_draft, hdr, setDoc, List.lookup]
  · intro drafts jobs uuidHex dr2 hdr2
    simp only [api_send_draft, hdr2]
    exact ⟨_, rfl, rfl, by simp [setDoc, List.lookup]⟩

/-- The drafts dictionary of the C1 counterexample: one draft still at
status "draft" (never approved). -/
def c1Db : RouteDraftsDb := [("d1", { draftId := "d1", status := "draft" })]

/-- Counterexample for C1 as stated: sending a draft whose status is
"draft" — skipping "approved" — is not rejected: the handler reports
success and the draft transitions straight to "sent". -/
theorem c1_counterexample :
    (List.lookup "d1" c1Db).map RouteDraft.status = some "draft" ∧
    (send_draft c1Db "d1").2.sent = true ∧
    (List.lookup "d1" (send_draft c1Db "d1").1).map RouteDraft.status =
      some "sent" :=
  ⟨rfl, rfl, rfl⟩

/-- The api/index.py drafts dictionary of the C1 witness. -/
def c1ApiDrafts : List (String × ApiDraft) :=
  [("d1", { draftId := "d1", jobId := "j1", status := "draft" })]

/-- Witness for C1's amended statement, discharging the api-route lookup
hypothesis at a concrete drafts dictionary. -/
theorem c1_witness :
    (send_draft c1Db "d1").2.sent = true ∧
    (∃ out, api_send_draft c1ApiDrafts [] "abc12345" "d1" = some out ∧
      out.2.2.sent = true ∧
      (List.lookup "d1" out.1).map ApiDraft.status = some "sent") :=
  ⟨(c1_send_draft_unconditional c1Db "d1").1,
   (c1_send_draft_unconditional c1Db "d1").2.2 c1ApiDrafts [] "abc12345"
     { draftId := "d1", jobId := "j1", status := "draft" } rfl⟩

/-- C2 (amended): `update_job_status` is an unconditional partial update —
it never inspects the job's current status, so any lookup-found job, a
`done` or `failed` one included, is overwritten with the requested status
(plus the optional `sentCount` / `cost` fields) and the call reports
success.  Monotonicity of the job state machine is not enforced by the
store. -/
theorem c2_update_job_status_unconditional (d : FirestoreDB) (jid : String)
    (st : JobStatus) (sc : Option Nat) (co : Option Float) (j : Job)
    (h : List.lookup jid d.jobs = some j) :
    (update_job_status (some d) jid st sc co).1 = true ∧
    get_job (update_job_status (some d) jid st sc co).2 jid =
      some { j with
        sentCount := sc.getD j.sentCount
        costUSD := co.getD j.costUSD
        status := st } := by
  cases sc <;> cases co <;>
    simp [update_job_status, h, get_job, setDoc, List.lookup, Option.getD]

/-- The terminal job of the C2 counterexample. -/
def c2JobDone : Job :=
  { jobId := "job1", campaignId := "camp1", plannedCount := 3, sentCount := 3
    status := JobStatus.done }

/-- The database of the C2 counterexample. -/
def c2Db : FirestoreDB := { jobs := [("job1", c2JobDone)] }

/-- Counterexample for C2 as stated: a job already at `done` is moved back
to `running` by a subsequent `update_job_status` call, which reports
success. -/
theorem c2_counterexample :
    (get_job (some c2Db) "job1").map Job.status = some JobStatus.done ∧
    (update_job_status (some c2Db) "job1" JobStatus.running none none).1 = true ∧
    (get_job (update_job_status (some c2Db) "job1" JobStatus.running none none).2
      "job1").map Job.status = some JobStatus.running :=
  ⟨rfl, rfl, rfl⟩

/-- Witness for C2's amended statement at the concrete `done` job. -/
theorem c2_witness :
    List.lookup "job1" c2Db.jobs = some c2JobDone ∧
    (update_job_status (some c2Db) "job1" JobStatus.running none none).1 = true ∧
    get_job (update_job_status (some c2Db) "job1" JobStatus.running none none).2
        "job1" =
      some { c2JobDone with
        sentCount := Option.getD none c2JobDone.sentCount
        costUSD := Option.getD none c2JobDone.costUSD
        status := JobStatus.running } :=
  ⟨rfl,
   (c2_update_job_status_unconditional c2Db "job1" JobStatus.running none none
     c2JobDone rfl).1,
   (c2_update_job_status_unconditional c2Db "job1" JobStatus.running none none
     c2JobDone rfl).2⟩

/-- C8 (amended): with the backend connection never established
(`db = none`), every store operation returns early with its benign default —
`False` for create/update/log, `None` for single-entity reads, `[]` for
list reads, default settings for the settings read — and nothing raises;
and with an available backend every `get*` returns `None` (not found, not an
exception) when the entity is absent.  For the read operations the
unavailable-backend value coincides with the not-found/empty value, so it is
not a distinguishable BackendUnavailable outcome (see the counterexample). -/
theorem c8_store_fail_defaults :
    (∀ c, create_campaign none c = (false, none)) ∧
    (∀ id, get_campaign none id = none) ∧
    (∀ j, create_job none j = (false, none)) ∧
    (∀ id, get_job none id = none) ∧
    (∀ id st sc co, update_job_status none id st sc co = (false, none)) ∧
    (∀ l, create_lead none l = (false, none)) ∧
    (∀ id, get_leads_by_job none id = []) ∧
    (∀ dr, create_draft none dr = (false, none)) ∧
    (∀ id, get_draft none id = none) ∧
    (∀ id st, get_drafts_by_job none id st = []) ∧
    (∀ id st r m, update_draft_status none id st r m = (false, none)) ∧
    (∀ e, log_run_event none e = (false, none)) ∧
    (get_global_settings none = ({}, none)) ∧
    (∀ d id, List.lookup id d.jobs = none → get_job (some d) id = none) ∧
    (∀ d id, List.lookup id d.campaigns = none → get_campaign (some d) id = none) ∧
    (∀ d id, List.lookup id d.drafts = none → get_draft (some d) id = none) := by
  refine ⟨fun _ => rfl, fun _ => rfl, fun _ => rfl, fun _ => rfl,
    fun _ _ _ _ => rfl, fun _ => rfl, fun _ => rfl, fun _ => rfl, fun _ => rfl,
    fun _ _ => rfl, fun _ _ _ _ => rfl, fun _ => rfl, rfl,
    fun d id h => ?_, fun d id h => ?_, fun d id h => ?_⟩
  · simp [get_job, h]
  · simp [get_campaign, h]
  · simp [get_draft, h]

/-- Counterexample for C8 as stated: the unavailable-backend outcome of
`get_job` is byte-identical to its not-found outcome on a healthy empty
backend — `None` both times — so the failure is not distinguishable as
BackendUnavailable. -/
theorem c8_counterexample :
    get_job none "j1" = get_job (some {}) "j1" ∧ get_job none "j1" = none :=
  ⟨rfl, rfl⟩

/-- Witness for C8's amended statement, discharging the absent-id hypothesis
on an empty database. -/
theorem c8_witness :
    get_job none "j1" = none ∧ get_job (some {}) "j1" = none :=
  ⟨c8_store_fail_defaults.2.2.2.1 "j1",
   c8_store_fail_defaults.2.2.2.2.2.2.2.2.2.2.2.2.2.1 {} "j1" rfl⟩

/-- C10: on a draft id absent from storage, the routes/drafts.py approve,
reject and send handlers do not report not-found: each first inserts a
record with status "draft" for the id and then overwrites the status with
"approved", "rejected" or "sent" respectively, returning a success
response. -/
theorem c10_absent_draft_created (db : RouteDraftsDb) (id : String)
    (h : List.lookup id db = none) :
    (approve_draft db id).2 = { ok := true, draftId := id } ∧
    List.lookup id (approve_draft db id).1 =
      some { draftId := id, status := "approved" } ∧
    (reject_draft db id).2 = { ok := true, draftId := id } ∧
    List.lookup id (reject_draft db id).1 =
      some { draftId := id, status := "rejected" } ∧
    (send_draft db id).2 =
      { sent := true, messageId := "sg_demo_" ++ id, draftId := id } ∧
    List.lookup id (send_draft db id).1 =
      some { draftId := id, status := "sent"
             messageId := some ("sg_demo_" ++ id) } := by
  have hens : List.lookup id (ensureRouteDraft db id) =
      some { draftId := id, status := "draft" } := by
    unfold ensureRouteDraft
    rw [h]
    simp [setDoc, List.lookup]
  refine ⟨?_, ?_, ?_, ?_, ?_, ?_⟩ <;>
    simp [approve_draft, reject_draft, send_draft, hens, setDoc, List.lookup]

/-- Witness for C10 on the empty drafts dictionary. -/
theorem c10_witness :
    (approve_draft [] "d9").2 = { ok := true, draftId := "d9" } ∧
    List.lookup "d9" (approve_draft [] "d9").1 =
      some { draftId := "d9", status := "approved" } ∧
    (reject_draft [] "d9").2 = { ok := true, draftId := "d9" } ∧
    List.lookup "d9" (reject_draft [] "d9").1 =
      some { draftId := "d9", status := "rejected" } ∧
    (send_draft [] "d9").2 =
      { sent := true, messageId := "sg_demo_" ++ "d9", draftId := "d9" } ∧
    List.lookup "d9" (send_draft [] "d9").1 =
      some { draftId := "d9", status := "sent"
             messageId := some ("sg_demo_" ++ "d9") } :=
  c10_absent_draft_created [] "d9" rfl

end AcuLeadFinder
